import Mathlib

/-!
Verification of the market-sentiment aggregation engine.

This file shallowly embeds the sentiment computation core of the repository:
the shared sentiment constants, the sentiment classifier and score validator
(`SentimentUtils`), the indicator normalizers (`ValidationUtils.normalize`,
`VIXUtils.normalizeVIXValue`), and the aggregation service
(`DataAggregationService.calculateCurrentSentiment`, `calculateVolatility`,
`getAggregatedStats`).  JavaScript numbers are rationals; where the exact
value of an arithmetic chain matters (the weighted accumulation and scoring),
a second embedding performs every operation in IEEE-754 binary64: `fl`
rounds a rational to the nearest double (53 significand bits, ties to even)
and `dadd`/`dmul`/`ddiv` round after each operation, as the program's
doubles do.  `Math.round` is `round` (`⌊x + 1/2⌋`, which agrees with the
ECMAScript definition on every double); `Math.sqrt` is `Real.sqrt`.
-/

/-! ## Shared constants (packages/shared: SENTIMENT_CONSTANTS) -/

namespace SENTIMENT_CONSTANTS

def MIN_SCORE : ℚ := 0

def MAX_SCORE : ℚ := 100

def EXTREME_FEAR_THRESHOLD : ℚ := 25

def FEAR_THRESHOLD : ℚ := 40

def NEUTRAL_THRESHOLD : ℚ := 60

def GREED_THRESHOLD : ℚ := 75

/-- SENTIMENT_COLORS lookup object: status string → display color.
A key outside the five states yields JS `undefined`, modelled as `""`
(never reached by the classifier). -/
def SENTIMENT_COLORS (status : String) : String :=
  if status = "extreme_fear" then "#0044ff"
  else if status = "fear" then "#0088ff"
  else if status = "neutral" then "#00aa00"
  else if status = "greed" then "#ff8800"
  else if status = "extreme_greed" then "#ff4444"
  else ""

/-- ACTIONS lookup object: status string → advice string. -/
def ACTIONS (status : String) : String :=
  if status = "extreme_fear" then "极度恐慌，逢低布局"
  else if status = "fear" then "恐慌，关注机会"
  else if status = "neutral" then "适度参与"
  else if status = "greed" then "贪婪，观望"
  else if status = "extreme_greed" then "极度贪婪，谨慎操作，逢高减仓"
  else ""

end SENTIMENT_CONSTANTS

/-! ## Weight configuration (SENTIMENT_CONSTANTS.DEFAULT_WEIGHTS) -/

structure SentimentWeights where
  vix : ℚ
  breadth : ℚ
  volume : ℚ
  margin : ℚ
  foreign : ℚ
deriving DecidableEq

def DEFAULT_WEIGHTS : SentimentWeights :=
  { vix := 3/10, breadth := 1/4, volume := 1/5, margin := 3/20, foreign := 1/10 }

/-! ## SentimentUtils (common/sentiment.utils.ts) -/

structure SentimentStatus where
  status : String
  color : String
  action : String
deriving DecidableEq

namespace SentimentUtils

open SENTIMENT_CONSTANTS

/-- getSentimentStatus: score → status/color/action.  `score === -1` is the
explicit no-data case; otherwise the threshold chain (inclusive upper bounds,
ascending, first match wins). -/
def getSentimentStatus (score : ℚ) : SentimentStatus :=
  if score = -1 then
    { status := "no_data", color := "#999999", action := "数据不足，无法提供建议" }
  else
    let status : String :=
      if score ≤ EXTREME_FEAR_THRESHOLD then "extreme_fear"
      else if score ≤ FEAR_THRESHOLD then "fear"
      else if score ≤ NEUTRAL_THRESHOLD then "neutral"
      else if score ≤ GREED_THRESHOLD then "greed"
      else "extreme_greed"
    { status := status, color := SENTIMENT_COLORS status, action := ACTIONS status }

/-- Argument of `validateScore`: JS permits passing a non-number (or NaN)
where the TS signature says `number`; the rationals cover every other case. -/
inductive ScoreInput where
  | num (q : ℚ)
  | notNumber
deriving DecidableEq

/-- validateScore: `-1` for a non-number or NaN argument, otherwise
`Math.max(MIN_SCORE, Math.min(MAX_SCORE, score))`. -/
def validateScore (score : ScoreInput) : ℚ :=
  match score with
  | .notNumber => -1
  | .num q => max MIN_SCORE (min MAX_SCORE q)

end SentimentUtils

/-! ## Indicator normalizers -/

namespace ValidationUtils

/-- normalize (common/data-collection.utils.ts): clamped linear scaling to
[0,1], preserving the missing sentinel -1. -/
def normalize (value mn mx : ℚ) : ℚ :=
  if value = -1 then -1
  else max 0 (min 1 ((value - mn) / (mx - mn)))

end ValidationUtils

namespace VIXUtils

/-- normalizeVIXValue (common/vix.utils.ts): clamped linear scaling with the
fixed VIX bounds 10–50.  Note: no sentinel check before the scaling. -/
def normalizeVIXValue (vix : ℚ) : ℚ :=
  let normalized := (vix - 10) / (50 - 10)
  max 0 (min 1 normalized)

end VIXUtils

/-! ## DataAggregationService (modules/data-aggregation/data-aggregation.service.ts)

`getLatestDataByTypes` returns (at most) one newest valid `MarketDataEntity`
row per indicator type; the pure computation downstream of that query is
embedded here, with the query result (`LatestData`) and the wall clock
(`now`, in minutes) as explicit inputs.  Timestamps are rationals (minutes);
`moment().diff(t, 'minutes')` on a past timestamp is `⌊now - t⌋`. -/

structure MarketRecord where
  normalizedValue : Option ℚ
  createdAt : ℚ
deriving DecidableEq

structure LatestData where
  vix : Option MarketRecord
  breadth : Option MarketRecord
  volume : Option MarketRecord
  margin : Option MarketRecord
  foreign : Option MarketRecord
deriving DecidableEq

structure SentimentIndicators where
  vix : ℚ
  breadth : ℚ
  volume : ℚ
  margin : ℚ
  foreign : ℚ
deriving DecidableEq

structure DataFreshness where
  minutesOld : ℤ
  isFresh : Bool
  timestamp : ℚ
deriving DecidableEq

structure CalculationDetails where
  weights : SentimentWeights
  rawIndicators : SentimentIndicators
  weightedSum : ℚ
  totalWeight : ℚ
  validIndicatorCount : ℕ
  dataFreshness : List (String × DataFreshness)
  calculatedAt : ℚ
deriving DecidableEq

structure AggregatedSentimentData where
  score : ℤ
  status : String
  color : String
  action : String
  indicators : SentimentIndicators
  calculationDetails : CalculationDetails
  timestamp : ℚ
deriving DecidableEq

namespace DataAggregationService

/-- extractIndicatorValue: missing record or null normalizedValue → -1. -/
def extractIndicatorValue (record : Option MarketRecord) : ℚ :=
  match record with
  | none => -1
  | some r =>
    match r.normalizedValue with
    | none => -1
    | some v => v

/-- freshness entry for one present record, relative to `now`. -/
def freshnessOf (now : ℚ) (r : MarketRecord) : DataFreshness :=
  let minutesOld : ℤ := ⌊now - r.createdAt⌋
  { minutesOld := minutesOld,
    isFresh := if minutesOld < 30 then true else false,
    timestamp := r.createdAt }

/-- calculateDataFreshness: one entry per present record, in the key order
breadth, volume, margin, foreign, vix in which `getLatestDataByTypes`
inserts them. -/
def calculateDataFreshness (latestData : LatestData) (now : ℚ) :
    List (String × DataFreshness) :=
  (match latestData.breadth with
    | some r => [("breadth", freshnessOf now r)] | none => []) ++
  (match latestData.volume with
    | some r => [("volume", freshnessOf now r)] | none => []) ++
  (match latestData.margin with
    | some r => [("margin", freshnessOf now r)] | none => []) ++
  (match latestData.foreign with
    | some r => [("foreign", freshnessOf now r)] | none => []) ++
  (match latestData.vix with
    | some r => [("vix", freshnessOf now r)] | none => [])

/-- (weight, value) pairs in the `Object.keys(this.weights)` iteration order
vix, breadth, volume, margin, foreign. -/
def weightEntries (w : SentimentWeights) (ind : SentimentIndicators) :
    List (ℚ × ℚ) :=
  [(w.vix, ind.vix), (w.breadth, ind.breadth), (w.volume, ind.volume),
   (w.margin, ind.margin), (w.foreign, ind.foreign)]

/-- one step of the forEach accumulation of
(weightedSum, totalWeight, validIndicatorCount): an indicator whose value is
the sentinel -1 is skipped entirely. -/
def accumulateStep (acc : ℚ × ℚ × ℕ) (entry : ℚ × ℚ) : ℚ × ℚ × ℕ :=
  if entry.2 ≠ -1 then
    (acc.1 + entry.2 * entry.1, acc.2.1 + entry.1, acc.2.2 + 1)
  else acc

/-- the full forEach loop over the weight table. -/
def accumulate (w : SentimentWeights) (ind : SentimentIndicators) : ℚ × ℚ × ℕ :=
  (weightEntries w ind).foldl accumulateStep (0, 0, 0)

/-- calculateCurrentSentiment, downstream of the data query: build the
indicator map, accumulate valid indicators, branch on
`validIndicatorCount === 0`, otherwise divide, clamp to
[MIN_SCORE, MAX_SCORE], classify, and round. -/
def calculateCurrentSentiment (latestData : LatestData) (now : ℚ) :
    AggregatedSentimentData :=
  let indicators : SentimentIndicators :=
    { vix := extractIndicatorValue latestData.vix,
      breadth := extractIndicatorValue latestData.breadth,
      volume := extractIndicatorValue latestData.volume,
      margin := extractIndicatorValue latestData.margin,
      foreign := extractIndicatorValue latestData.foreign }
  let acc := accumulate DEFAULT_WEIGHTS indicators
  if acc.2.2 = 0 then
    { score := -1,
      status := "no_data",
      color := "#999999",
      action := "数据不足，无法计算情绪指数",
      indicators := indicators,
      calculationDetails :=
        { weights := DEFAULT_WEIGHTS,
          rawIndicators := indicators,
          weightedSum := 0,
          totalWeight := 0,
          validIndicatorCount := 0,
          dataFreshness := calculateDataFreshness latestData now,
          calculatedAt := now },
      timestamp := now }
  else
    let sentimentScore := acc.1 / acc.2.1
    let finalScore :=
      max SENTIMENT_CONSTANTS.MIN_SCORE
        (min SENTIMENT_CONSTANTS.MAX_SCORE (sentimentScore * 100))
    let statusInfo := SentimentUtils.getSentimentStatus finalScore
    { score := round finalScore,
      status := statusInfo.status,
      color := statusInfo.color,
      action := statusInfo.action,
      indicators := indicators,
      calculationDetails :=
        { weights := DEFAULT_WEIGHTS,
          rawIndicators := indicators,
          weightedSum := sentimentScore,
          totalWeight := acc.2.1,
          validIndicatorCount := acc.2.2,
          dataFreshness := calculateDataFreshness latestData now,
          calculatedAt := now },
      timestamp := now }

end DataAggregationService

/-- a present record carrying an already-normalized value, captured at `t`. -/
def mkRecord (v : ℚ) (t : ℚ) : MarketRecord :=
  { normalizedValue := some v, createdAt := t }

/-! ## History records and query/stats
(`SentimentHistoryEntity` rows as the stats code reads them:
`Number(record.score)`, `record.status`, `createdAt`). -/

structure SentimentHistoryRecord where
  score : ℚ
  status : String
  createdAt : ℚ
deriving DecidableEq

/-- result object of `getAggregatedStats` (period/statistics/distribution
flattened; `periodDays` is the `period.days` field, which the code sets to
`historyData.length`). -/
structure AggregatedStats where
  periodStart : ℚ
  periodEnd : ℚ
  periodDays : ℕ
  average : ℤ
  maximum : ℚ
  minimum : ℚ
  volatility : ℝ
  distribution : List (String × ℕ)

namespace DataAggregationService

/-- calculateVolatility: 0 for fewer than two scores, else the square root
of the population variance computed with the two-pass mean/variance
reductions of the source. -/
noncomputable def calculateVolatility (scores : List ℚ) : ℝ :=
  if scores.length < 2 then 0
  else
    let mean := scores.sum / (scores.length : ℚ)
    let variance := (scores.map (fun score => (score - mean) ^ 2)).sum / (scores.length : ℚ)
    Real.sqrt (variance : ℝ)

/-- the `BETWEEN :startDate AND :endDate` row filter (inclusive ends). -/
def inRange (startDate endDate : ℚ) (r : SentimentHistoryRecord) : Bool :=
  decide (startDate ≤ r.createdAt) && decide (r.createdAt ≤ endDate)

/-- one step of the status-distribution reduce:
`acc[record.status] = (acc[record.status] || 0) + 1` on a JS object kept in
insertion order. -/
def bump (acc : List (String × ℕ)) (status : String) : List (String × ℕ) :=
  match acc with
  | [] => [(status, 1)]
  | (k, n) :: rest =>
    if k = status then (k, n + 1) :: rest else (k, n) :: bump rest status

/-- the full status-distribution reduce over the rows found. -/
def statusDistribution (records : List SentimentHistoryRecord) :
    List (String × ℕ) :=
  records.foldl (fun acc r => bump acc r.status) []

/-- `Math.max(...scores)`; the empty case (JS `-Infinity`) is unreachable
because the caller returns `null` first. -/
def maxOfScores : List ℚ → ℚ
  | [] => 0
  | x :: xs => xs.foldl max x

/-- `Math.min(...scores)`; empty case unreachable as for `maxOfScores`. -/
def minOfScores : List ℚ → ℚ
  | [] => 0
  | x :: xs => xs.foldl min x

/-- getAggregatedStats, downstream of the row query: `null` when no rows are
in range, otherwise rounded average, max, min, volatility and the status
distribution of the rows found. -/
noncomputable def getAggregatedStats (records : List SentimentHistoryRecord)
    (startDate endDate : ℚ) : Option AggregatedStats :=
  let historyData := records.filter (inRange startDate endDate)
  if historyData.length = 0 then none
  else
    let scores := historyData.map (fun r => r.score)
    let avgScore := scores.sum / (scores.length : ℚ)
    some
      { periodStart := startDate,
        periodEnd := endDate,
        periodDays := historyData.length,
        average := round avgScore,
        maximum := maxOfScores scores,
        minimum := minOfScores scores,
        volatility := calculateVolatility scores,
        distribution := statusDistribution historyData }

end DataAggregationService

/-- The spec's volatility formula, written from its words: the population
standard deviation `sqrt(mean((score_i - mean)^2))` of the scores. -/
noncomputable def popStdDev (scores : List ℚ) : ℝ :=
  let mean := scores.sum / (scores.length : ℚ)
  Real.sqrt (((scores.map (fun score => (score - mean) ^ 2)).sum / (scores.length : ℚ) : ℚ) : ℝ)

/-! ## IEEE-754 binary64 model

The program stores and combines its numbers as JavaScript doubles, so the
arithmetic of the aggregation loop rounds after every operation.  `fl`
rounds a rational to the nearest binary64 value (53 significand bits,
round-to-nearest, ties-to-even), valid for the normal range of doubles —
overflow and subnormal thresholds are never reached by the magnitudes in
this program.  The mantissa and scale of the argument are found by
fuel-bounded halving/doubling (fuel 3000 covers every normal double), and
the 53-bit significand by fuel-bounded binary search, so that concrete
values evaluate by rewriting. -/

/-- the argument scaled into [1, 2) by repeated halving or doubling. -/
def mant : ℕ → ℚ → ℚ
  | 0, q => q
  | fuel + 1, q =>
    if 2 ≤ q then mant fuel (q / 2)
    else if q < 1 then mant fuel (q * 2)
    else q

/-- the power of two with `q = mant q * scaleOf q` (for positive `q`). -/
def scaleOf : ℕ → ℚ → ℚ
  | 0, _ => 1
  | fuel + 1, q =>
    if 2 ≤ q then scaleOf fuel (q / 2) * 2
    else if q < 1 then scaleOf fuel (q * 2) / 2
    else 1

/-- binary search for `⌊m⌋` inside a known range `[lo, hi)`. -/
def floorInRange : ℕ → ℤ → ℤ → ℚ → ℤ
  | 0, lo, _, _ => lo
  | fuel + 1, lo, hi, m =>
    if hi ≤ lo + 1 then lo
    else
      if ((lo + hi) / 2 : ℤ) ≤ m then floorInRange fuel ((lo + hi) / 2) hi m
      else floorInRange fuel lo ((lo + hi) / 2) m

/-- round a rational to the nearest binary64 double: scale the magnitude
into [2^52, 2^53), round the 53-bit significand to nearest with ties to
even, and scale back. -/
def fl (q : ℚ) : ℚ :=
  if q = 0 then 0
  else
    let a := if q < 0 then -q else q
    let m := mant 3000 a * 2 ^ 52
    let f := floorInRange 60 (2 ^ 52) (2 ^ 53) m
    let n := if m - f < 1/2 then f
      else if (1 : ℚ)/2 < m - f then f + 1
      else if f % 2 = 0 then f else f + 1
    let r := (n : ℚ) * scaleOf 3000 a / 2 ^ 52
    if q < 0 then -r else r

/-- binary64 addition: exact sum, then one rounding. -/
def dadd (a b : ℚ) : ℚ := fl (a + b)

/-- binary64 multiplication: exact product, then one rounding. -/
def dmul (a b : ℚ) : ℚ := fl (a * b)

/-- binary64 division: exact quotient, then one rounding. -/
def ddiv (a b : ℚ) : ℚ := fl (a / b)

/-- the weight literals 0.3, 0.25, 0.2, 0.15, 0.1 as the doubles the
program actually holds. -/
def DEFAULT_WEIGHTS64 : SentimentWeights :=
  { vix := fl (3/10), breadth := fl (1/4), volume := fl (1/5),
    margin := fl (3/20), foreign := fl (1/10) }

namespace DataAggregationService

/-- extractIndicatorValue under double semantics: `Number(...)` of the
stored decimal is the nearest double; an absent record stays -1 (exact). -/
def extractIndicatorValue64 (record : Option MarketRecord) : ℚ :=
  fl (extractIndicatorValue record)

/-- the forEach accumulation step with binary64 rounding after each
product and each sum, as the program's doubles round. -/
def accumulateStep64 (acc : ℚ × ℚ × ℕ) (entry : ℚ × ℚ) : ℚ × ℚ × ℕ :=
  if entry.2 ≠ -1 then
    (dadd acc.1 (dmul entry.2 entry.1), dadd acc.2.1 entry.1, acc.2.2 + 1)
  else acc

/-- the full forEach loop over the weight table, in binary64. -/
def accumulate64 (w : SentimentWeights) (ind : SentimentIndicators) :
    ℚ × ℚ × ℕ :=
  (weightEntries w ind).foldl accumulateStep64 (0, 0, 0)

/-- calculateCurrentSentiment with every arithmetic operation rounded to
binary64 (comparisons, `Math.max`/`Math.min` and `Math.round` are exact on
doubles and need no extra rounding step). -/
def calculateCurrentSentiment64 (latestData : LatestData) (now : ℚ) :
    AggregatedSentimentData :=
  let indicators : SentimentIndicators :=
    { vix := extractIndicatorValue64 latestData.vix,
      breadth := extractIndicatorValue64 latestData.breadth,
      volume := extractIndicatorValue64 latestData.volume,
      margin := extractIndicatorValue64 latestData.margin,
      foreign := extractIndicatorValue64 latestData.foreign }
  let acc := accumulate64 DEFAULT_WEIGHTS64 indicators
  if acc.2.2 = 0 then
    { score := -1,
      status := "no_data",
      color := "#999999",
      action := "数据不足，无法计算情绪指数",
      indicators := indicators,
      calculationDetails :=
        { weights := DEFAULT_WEIGHTS64,
          rawIndicators := indicators,
          weightedSum := 0,
          totalWeight := 0,
          validIndicatorCount := 0,
          dataFreshness := calculateDataFreshness latestData now,
          calculatedAt := now },
      timestamp := now }
  else
    let sentimentScore := ddiv acc.1 acc.2.1
    let finalScore :=
      max SENTIMENT_CONSTANTS.MIN_SCORE
        (min SENTIMENT_CONSTANTS.MAX_SCORE (dmul sentimentScore 100))
    let statusInfo := SentimentUtils.getSentimentStatus finalScore
    { score := round finalScore,
      status := statusInfo.status,
      color := statusInfo.color,
      action := statusInfo.action,
      indicators := indicators,
      calculationDetails :=
        { weights := DEFAULT_WEIGHTS64,
          rawIndicators := indicators,
          weightedSum := sentimentScore,
          totalWeight := acc.2.1,
          validIndicatorCount := acc.2.2,
          dataFreshness := calculateDataFreshness latestData now,
          calculatedAt := now },
      timestamp := now }

end DataAggregationService

/-- the stored readings of the end-to-end scenario: normalized decimals
0.2, 0.6, 0.7, 0.5, 0.3, all captured at minute 0. -/
def scenarioC1 : LatestData :=
  { vix := some (mkRecord (1/5) 0), breadth := some (mkRecord (3/5) 0),
    volume := some (mkRecord (7/10) 0), margin := some (mkRecord (1/2) 0),
    foreign := some (mkRecord (3/10) 0) }

/-- stored readings with only the vix indicator present. -/
def onlyVix (v : ℚ) : LatestData :=
  { vix := some (mkRecord v 0), breadth := none, volume := none,
    margin := none, foreign := none }

/-- stored readings with only the breadth indicator present. -/
def onlyBreadth (v : ℚ) : LatestData :=
  { vix := none, breadth := some (mkRecord v 0), volume := none,
    margin := none, foreign := none }

/-- stored readings with only the volume indicator present. -/
def onlyVolume (v : ℚ) : LatestData :=
  { vix := none, breadth := none, volume := some (mkRecord v 0),
    margin := none, foreign := none }

/-- stored readings with only the margin indicator present. -/
def onlyMargin (v : ℚ) : LatestData :=
  { vix := none, breadth := none, volume := none,
    margin := some (mkRecord v 0), foreign := none }

/-- stored readings with only the foreign indicator present. -/
def onlyForeign (v : ℚ) : LatestData :=
  { vix := none, breadth := none, volume := none, margin := none,
    foreign := some (mkRecord v 0) }

/-! ## Helper lemmas -/

lemma round_nonneg_of_nonneg {x : ℚ} (h : 0 ≤ x) : 0 ≤ round x := by
  rw [round_eq]
  exact Int.le_floor.mpr (by push_cast; linarith)

lemma round_le_hundred {x : ℚ} (h : x ≤ 100) : round x ≤ 100 := by
  rw [round_eq]
  have hlt : ⌊x + 1 / 2⌋ < 101 := Int.floor_lt.mpr (by push_cast; linarith)
  omega

lemma getSentimentStatus_status_mem {s : ℚ} (h : 0 ≤ s) :
    (SentimentUtils.getSentimentStatus s).status = "extreme_fear" ∨
    (SentimentUtils.getSentimentStatus s).status = "fear" ∨
    (SentimentUtils.getSentimentStatus s).status = "neutral" ∨
    (SentimentUtils.getSentimentStatus s).status = "greed" ∨
    (SentimentUtils.getSentimentStatus s).status = "extreme_greed" := by
  have hne : s ≠ -1 := by intro he; rw [he] at h; norm_num at h
  simp only [SentimentUtils.getSentimentStatus, if_neg hne]
  split_ifs <;> simp

lemma self_le_foldl_max (xs : List ℚ) (x : ℚ) : x ≤ xs.foldl max x := by
  induction xs generalizing x with
  | nil => simp
  | cons a l ih => exact le_trans (le_max_left x a) (ih (max x a))

lemma mem_le_foldl_max (xs : List ℚ) (x : ℚ) {y : ℚ} (hy : y ∈ xs) :
    y ≤ xs.foldl max x := by
  induction xs generalizing x with
  | nil => cases hy
  | cons a l ih =>
    rcases List.mem_cons.mp hy with rfl | h
    · exact le_trans (le_max_right x y) (self_le_foldl_max l (max x y))
    · exact ih (max x a) h

lemma foldl_max_mem (xs : List ℚ) (x : ℚ) : xs.foldl max x ∈ x :: xs := by
  induction xs generalizing x with
  | nil => simp
  | cons a l ih =>
    rw [List.foldl_cons]
    have hmem := ih (max x a)
    rcases List.mem_cons.mp hmem with he | h
    · rw [he]
      rcases max_choice x a with h1 | h1 <;> rw [h1]
      · exact List.mem_cons_self x (a :: l)
      · exact List.mem_cons.mpr (Or.inr (List.mem_cons_self a l))
    · exact List.mem_cons.mpr (Or.inr (List.mem_cons.mpr (Or.inr h)))

lemma foldl_min_le_self (xs : List ℚ) (x : ℚ) : xs.foldl min x ≤ x := by
  induction xs generalizing x with
  | nil => simp
  | cons a l ih => exact le_trans (ih (min x a)) (min_le_left x a)

lemma foldl_min_le_mem (xs : List ℚ) (x : ℚ) {y : ℚ} (hy : y ∈ xs) :
    xs.foldl min x ≤ y := by
  induction xs generalizing x with
  | nil => cases hy
  | cons a l ih =>
    rcases List.mem_cons.mp hy with rfl | h
    · exact le_trans (foldl_min_le_self l (min x y)) (min_le_right x y)
    · exact ih (min x a) h

lemma lookup_bump (acc : List (String × ℕ)) (st k : String) :
    ((DataAggregationService.bump acc st).lookup k).getD 0
      = if k = st then ((acc.lookup k).getD 0) + 1 else (acc.lookup k).getD 0 := by
  induction acc with
  | nil =>
    by_cases h : k = st
    · simp [DataAggregationService.bump, List.lookup_cons, h]
    · have hb : (k == st) = false := beq_eq_false_iff_ne.mpr h
      simp [DataAggregationService.bump, List.lookup_cons, h, hb]
  | cons p rest ih =>
    obtain ⟨a, n⟩ := p
    by_cases has : a = st
    · subst has
      by_cases hka : k = a
      · simp [DataAggregationService.bump, List.lookup_cons, hka]
      · have hb : (k == a) = false := beq_eq_false_iff_ne.mpr hka
        simp [DataAggregationService.bump, List.lookup_cons, hka, hb]
    · by_cases hka : k = a
      · subst hka
        have hks : ¬k = st := has
        simp [DataAggregationService.bump, has, List.lookup_cons, hks]
      · have hb : (k == a) = false := beq_eq_false_iff_ne.mpr hka
        simp [DataAggregationService.bump, has, List.lookup_cons, hka, hb, ih]

lemma lookup_foldl_bump (l : List SentimentHistoryRecord)
    (acc : List (String × ℕ)) (st : String) :
    ((l.foldl (fun a r => DataAggregationService.bump a r.status) acc).lookup st).getD 0
      = ((acc.lookup st).getD 0) + l.countP (fun r => r.status == st) := by
  induction l generalizing acc with
  | nil => simp
  | cons r t ih =>
    rw [List.foldl_cons, ih, lookup_bump]
    by_cases h : st = r.status
    · simp only [h, if_pos rfl, List.countP_cons]
      have : (r.status == r.status) = true := by simp
      simp [this]
      omega
    · have hb : (r.status == st) = false := by
        simp [beq_eq_false_iff_ne]
        exact fun he => h he.symm
      simp [h, List.countP_cons, hb]

lemma lookup_statusDistribution (l : List SentimentHistoryRecord) (st : String) :
    ((DataAggregationService.statusDistribution l).lookup st).getD 0
      = l.countP (fun r => r.status == st) := by
  simpa [DataAggregationService.statusDistribution] using lookup_foldl_bump l [] st

lemma foldl_min_mem (xs : List ℚ) (x : ℚ) : xs.foldl min x ∈ x :: xs := by
  induction xs generalizing x with
  | nil => simp
  | cons a l ih =>
    rw [List.foldl_cons]
    have hmem := ih (min x a)
    rcases List.mem_cons.mp hmem with he | h
    · rw [he]
      rcases min_choice x a with h1 | h1 <;> rw [h1]
      · exact List.mem_cons_self x (a :: l)
      · exact List.mem_cons.mpr (Or.inr (List.mem_cons_self a l))
    · exact List.mem_cons.mpr (Or.inr (List.mem_cons.mpr (Or.inr h)))

lemma mant_ge (fuel : ℕ) (q : ℚ) (h : 2 ≤ q) :
    mant (fuel + 1) q = mant fuel (q / 2) := by
  rw [mant, if_pos h]

lemma mant_lt (fuel : ℕ) (q : ℚ) (h1 : ¬2 ≤ q) (h2 : q < 1) :
    mant (fuel + 1) q = mant fuel (q * 2) := by
  rw [mant, if_neg h1, if_pos h2]

lemma mant_unit (fuel : ℕ) (q : ℚ) (h1 : ¬2 ≤ q) (h2 : ¬q < 1) :
    mant (fuel + 1) q = q := by
  rw [mant, if_neg h1, if_neg h2]

lemma scaleOf_ge (fuel : ℕ) (q : ℚ) (h : 2 ≤ q) :
    scaleOf (fuel + 1) q = scaleOf fuel (q / 2) * 2 := by
  rw [scaleOf, if_pos h]

lemma scaleOf_lt (fuel : ℕ) (q : ℚ) (h1 : ¬2 ≤ q) (h2 : q < 1) :
    scaleOf (fuel + 1) q = scaleOf fuel (q * 2) / 2 := by
  rw [scaleOf, if_neg h1, if_pos h2]

lemma scaleOf_unit (fuel : ℕ) (q : ℚ) (h1 : ¬2 ≤ q) (h2 : ¬q < 1) :
    scaleOf (fuel + 1) q = 1 := by
  rw [scaleOf, if_neg h1, if_neg h2]

lemma floorInRange_done (fuel : ℕ) (lo hi : ℤ) (m : ℚ) (h : hi ≤ lo + 1) :
    floorInRange (fuel + 1) lo hi m = lo := by
  rw [floorInRange, if_pos h]

lemma floorInRange_ge (fuel : ℕ) (lo hi : ℤ) (m : ℚ) (h1 : ¬hi ≤ lo + 1)
    (h2 : ((lo + hi) / 2 : ℤ) ≤ m) :
    floorInRange (fuel + 1) lo hi m = floorInRange fuel ((lo + hi) / 2) hi m := by
  rw [floorInRange, if_neg h1, if_pos h2]

lemma floorInRange_lt (fuel : ℕ) (lo hi : ℤ) (m : ℚ) (h1 : ¬hi ≤ lo + 1)
    (h2 : ¬((lo + hi) / 2 : ℤ) ≤ m) :
    floorInRange (fuel + 1) lo hi m = floorInRange fuel lo ((lo + hi) / 2) m := by
  rw [floorInRange, if_neg h1, if_neg h2]

lemma fl_neg_one : fl (-1) = -1 := by
  norm_num [fl, mant_ge, mant_lt, mant_unit, scaleOf_ge, scaleOf_lt,
    scaleOf_unit, floorInRange_done, floorInRange_ge, floorInRange_lt]

lemma fl_one : fl 1 = 1 := by
  norm_num [fl, mant_ge, mant_lt, mant_unit, scaleOf_ge, scaleOf_lt,
    scaleOf_unit, floorInRange_done, floorInRange_ge, floorInRange_lt]

lemma fl_hundred : fl 100 = 100 := by
  norm_num [fl, mant_ge, mant_lt, mant_unit, scaleOf_ge, scaleOf_lt,
    scaleOf_unit, floorInRange_done, floorInRange_ge, floorInRange_lt]

lemma fl_w_vix : fl (3/10) = 5404319552844595/18014398509481984 := by
  norm_num [fl, mant_ge, mant_lt, mant_unit, scaleOf_ge, scaleOf_lt,
    scaleOf_unit, floorInRange_done, floorInRange_ge, floorInRange_lt]

lemma fl_w_vix_fix :
    fl (5404319552844595/18014398509481984)
      = 5404319552844595/18014398509481984 := by
  norm_num [fl, mant_ge, mant_lt, mant_unit, scaleOf_ge, scaleOf_lt,
    scaleOf_unit, floorInRange_done, floorInRange_ge, floorInRange_lt]

lemma fl_w_breadth : fl (1/4) = 1/4 := by
  norm_num [fl, mant_ge, mant_lt, mant_unit, scaleOf_ge, scaleOf_lt,
    scaleOf_unit, floorInRange_done, floorInRange_ge, floorInRange_lt]

lemma fl_w_volume : fl (1/5) = 3602879701896397/18014398509481984 := by
  norm_num [fl, mant_ge, mant_lt, mant_unit, scaleOf_ge, scaleOf_lt,
    scaleOf_unit, floorInRange_done, floorInRange_ge, floorInRange_lt]

lemma fl_w_volume_fix :
    fl (3602879701896397/18014398509481984)
      = 3602879701896397/18014398509481984 := by
  norm_num [fl, mant_ge, mant_lt, mant_unit, scaleOf_ge, scaleOf_lt,
    scaleOf_unit, floorInRange_done, floorInRange_ge, floorInRange_lt]

lemma fl_w_margin : fl (3/20) = 5404319552844595/36028797018963968 := by
  norm_num [fl, mant_ge, mant_lt, mant_unit, scaleOf_ge, scaleOf_lt,
    scaleOf_unit, floorInRange_done, floorInRange_ge, floorInRange_lt]

lemma fl_w_margin_fix :
    fl (5404319552844595/36028797018963968)
      = 5404319552844595/36028797018963968 := by
  norm_num [fl, mant_ge, mant_lt, mant_unit, scaleOf_ge, scaleOf_lt,
    scaleOf_unit, floorInRange_done, floorInRange_ge, floorInRange_lt]

lemma fl_w_foreign : fl (1/10) = 3602879701896397/36028797018963968 := by
  norm_num [fl, mant_ge, mant_lt, mant_unit, scaleOf_ge, scaleOf_lt,
    scaleOf_unit, floorInRange_done, floorInRange_ge, floorInRange_lt]

lemma fl_w_foreign_fix :
    fl (3602879701896397/36028797018963968)
      = 3602879701896397/36028797018963968 := by
  norm_num [fl, mant_ge, mant_lt, mant_unit, scaleOf_ge, scaleOf_lt,
    scaleOf_unit, floorInRange_done, floorInRange_ge, floorInRange_lt]

/-- full binary64 evaluation of the end-to-end scenario: the accumulated
weightedSum is the double 0.45499999999999996, the clamped final score is
the double 45.49999999999999, and Math.round of it is 45. -/
lemma calc64_scenarioC1_eval :
    DataAggregationService.calculateCurrentSentiment64 scenarioC1 0 =
    { score := 45,
      status := "neutral",
      color := "#00aa00",
      action := "适度参与",
      indicators :=
        { vix := 3602879701896397/18014398509481984,
          breadth := 5404319552844595/9007199254740992,
          volume := 3152519739159347/4503599627370496,
          margin := 1/2,
          foreign := 5404319552844595/18014398509481984 },
      calculationDetails :=
        { weights := DEFAULT_WEIGHTS64,
          rawIndicators :=
            { vix := 3602879701896397/18014398509481984,
              breadth := 5404319552844595/9007199254740992,
              volume := 3152519739159347/4503599627370496,
              margin := 1/2,
              foreign := 5404319552844595/18014398509481984 },
          weightedSum := 4098275660907151/9007199254740992,
          totalWeight := 1,
          validIndicatorCount := 5,
          dataFreshness :=
            [("breadth", { minutesOld := 0, isFresh := true, timestamp := 0 }),
             ("volume", { minutesOld := 0, isFresh := true, timestamp := 0 }),
             ("margin", { minutesOld := 0, isFresh := true, timestamp := 0 }),
             ("foreign", { minutesOld := 0, isFresh := true, timestamp := 0 }),
             ("vix", { minutesOld := 0, isFresh := true, timestamp := 0 })],
          calculatedAt := 0 },
      timestamp := 0 } := by
  norm_num [DataAggregationService.calculateCurrentSentiment64,
    DataAggregationService.accumulate64, DataAggregationService.weightEntries,
    DataAggregationService.accumulateStep64,
    DataAggregationService.extractIndicatorValue64,
    DataAggregationService.extractIndicatorValue,
    DataAggregationService.calculateDataFreshness,
    DataAggregationService.freshnessOf, scenarioC1, mkRecord,
    DEFAULT_WEIGHTS64, dadd, dmul, ddiv, fl, mant_ge, mant_lt, mant_unit,
    scaleOf_ge, scaleOf_lt, scaleOf_unit, floorInRange_done, floorInRange_ge,
    floorInRange_lt, SentimentUtils.getSentimentStatus,
    SENTIMENT_CONSTANTS.MIN_SCORE, SENTIMENT_CONSTANTS.MAX_SCORE,
    SENTIMENT_CONSTANTS.EXTREME_FEAR_THRESHOLD,
    SENTIMENT_CONSTANTS.FEAR_THRESHOLD, SENTIMENT_CONSTANTS.NEUTRAL_THRESHOLD,
    SENTIMENT_CONSTANTS.GREED_THRESHOLD, SENTIMENT_CONSTANTS.SENTIMENT_COLORS,
    SENTIMENT_CONSTANTS.ACTIONS, round_eq]
  decide

/-! ## Claim theorems -/

/-- C1: counterexample — under the program's binary64 arithmetic the
end-to-end scenario (vix 0.2, breadth 0.6, volume 0.7, margin 0.5,
foreign 0.3) accumulates weightedSum 0.45499999999999996, not 0.455, and
the final score is Math.round(45.49999999999999) = 45, not round(45.5) = 46. -/
theorem C1_end_to_end_scenario_counterexample :
    (DataAggregationService.calculateCurrentSentiment64 scenarioC1
        0).calculationDetails.weightedSum ≠ 91/200 ∧
    (DataAggregationService.calculateCurrentSentiment64 scenarioC1 0).score
      ≠ 46 ∧
    (DataAggregationService.calculateCurrentSentiment64 scenarioC1
        0).calculationDetails.weightedSum
      = 4098275660907151/9007199254740992 ∧
    (DataAggregationService.calculateCurrentSentiment64 scenarioC1 0).score
      = 45 := by
  rw [calc64_scenarioC1_eval]
  norm_num

/-- C1 amended: under the program's binary64 arithmetic, the end-to-end
scenario yields recorded weightedSum 0.45499999999999996
(= 4098275660907151/9007199254740992), totalWeight 1, final score
Math.round(45.49999999999999) = 45, and status "neutral". -/
theorem C1_end_to_end_scenario_amended :
    (DataAggregationService.calculateCurrentSentiment64 scenarioC1
        0).calculationDetails.weightedSum
      = 4098275660907151/9007199254740992 ∧
    (DataAggregationService.calculateCurrentSentiment64 scenarioC1
        0).calculationDetails.totalWeight = 1 ∧
    (DataAggregationService.calculateCurrentSentiment64 scenarioC1 0).score
      = 45 ∧
    (DataAggregationService.calculateCurrentSentiment64 scenarioC1 0).status
      = "neutral" := by
  rw [calc64_scenarioC1_eval]
  norm_num

/-- C3: with all five indicators missing, aggregation returns the full
no-data record: score -1, status "no_data", the fixed no-data color, and
calculation details with weightedSum 0, totalWeight 0 and
validIndicatorCount 0 (the division branch is never reached: the recorded
sums are the literal zeros of the early return, not a quotient). -/
theorem C3_all_missing_no_data :
    DataAggregationService.calculateCurrentSentiment
      { vix := none, breadth := none, volume := none, margin := none,
        foreign := none } 0 =
    { score := -1,
      status := "no_data",
      color := "#999999",
      action := "数据不足，无法计算情绪指数",
      indicators :=
        { vix := -1, breadth := -1, volume := -1, margin := -1, foreign := -1 },
      calculationDetails :=
        { weights := DEFAULT_WEIGHTS,
          rawIndicators :=
            { vix := -1, breadth := -1, volume := -1, margin := -1,
              foreign := -1 },
          weightedSum := 0,
          totalWeight := 0,
          validIndicatorCount := 0,
          dataFreshness := [],
          calculatedAt := 0 },
      timestamp := 0 } := by
  rfl

/-- C5: the classifier uses inclusive upper bounds in ascending order:
25 → extreme_fear, 26 and 40 → fear, 41 and 60 → neutral, 61 and 75 → greed,
76 → extreme_greed. -/
theorem C5_threshold_boundaries :
    (SentimentUtils.getSentimentStatus 25).status = "extreme_fear" ∧
    (SentimentUtils.getSentimentStatus 26).status = "fear" ∧
    (SentimentUtils.getSentimentStatus 40).status = "fear" ∧
    (SentimentUtils.getSentimentStatus 41).status = "neutral" ∧
    (SentimentUtils.getSentimentStatus 60).status = "neutral" ∧
    (SentimentUtils.getSentimentStatus 61).status = "greed" ∧
    (SentimentUtils.getSentimentStatus 75).status = "greed" ∧
    (SentimentUtils.getSentimentStatus 76).status = "extreme_greed" := by
  refine ⟨?_, ?_, ?_, ?_, ?_, ?_, ?_, ?_⟩ <;>
    norm_num [SentimentUtils.getSentimentStatus,
      SENTIMENT_CONSTANTS.EXTREME_FEAR_THRESHOLD,
      SENTIMENT_CONSTANTS.FEAR_THRESHOLD,
      SENTIMENT_CONSTANTS.NEUTRAL_THRESHOLD,
      SENTIMENT_CONSTANTS.GREED_THRESHOLD]

/-- C10: validateScore does not preserve the missing sentinel: -1 is clamped
to 0; -1 is returned only for a non-number or NaN argument; every numeric
argument is clamped into [0,100] (identity inside the range, 0 below,
100 above). -/
theorem C10_validateScore_clamps_sentinel :
    SentimentUtils.validateScore (.num (-1)) = 0 ∧
    SentimentUtils.validateScore .notNumber = -1 ∧
    (∀ q : ℚ, SentimentUtils.validateScore (.num q) ≠ -1) ∧
    (∀ q : ℚ, 0 ≤ SentimentUtils.validateScore (.num q) ∧
      SentimentUtils.validateScore (.num q) ≤ 100) ∧
    (∀ q : ℚ, 0 ≤ q → q ≤ 100 → SentimentUtils.validateScore (.num q) = q) ∧
    (∀ q : ℚ, q < 0 → SentimentUtils.validateScore (.num q) = 0) ∧
    (∀ q : ℚ, 100 < q → SentimentUtils.validateScore (.num q) = 100) := by
  simp only [SentimentUtils.validateScore, SENTIMENT_CONSTANTS.MIN_SCORE,
    SENTIMENT_CONSTANTS.MAX_SCORE]
  refine ⟨by norm_num, trivial, ?_, ?_, ?_, ?_, ?_⟩
  · intro q h
    have h0 : (0 : ℚ) ≤ max 0 (min 100 q) := le_max_left _ _
    rw [h] at h0
    norm_num at h0
  · intro q
    exact ⟨le_max_left _ _, max_le (by norm_num) (min_le_left _ _)⟩
  · intro q h0 h1
    rw [min_eq_right h1, max_eq_right h0]
  · intro q h
    rw [min_eq_right (le_trans h.le (by norm_num)), max_eq_left h.le]
  · intro q h
    rw [min_eq_left h.le]
    norm_num

/-- Witness for C10: concrete clamping results. -/
theorem C10_validateScore_clamps_sentinel_witness :
    SentimentUtils.validateScore (.num 42) = 42 ∧
    SentimentUtils.validateScore (.num (-7)) = 0 ∧
    SentimentUtils.validateScore (.num 150) = 100 :=
  ⟨C10_validateScore_clamps_sentinel.2.2.2.2.1 42 (by norm_num) (by norm_num),
   C10_validateScore_clamps_sentinel.2.2.2.2.2.1 (-7) (by norm_num),
   C10_validateScore_clamps_sentinel.2.2.2.2.2.2 150 (by norm_num)⟩

/-- Counterexample for C6: the VIX-specific normalizer does not preserve the
missing sentinel: it clamps -1 to 0. -/
theorem C6_vix_normalizer_counterexample :
    VIXUtils.normalizeVIXValue (-1) ≠ -1 ∧
    VIXUtils.normalizeVIXValue (-1) = 0 := by
  norm_num [VIXUtils.normalizeVIXValue]

/-- C6 amended: ValidationUtils.normalize computes
clamp((value − min)/(max − min), 0, 1) for a non-sentinel value, stays in
[0,1] there, and maps the sentinel -1 to -1; VIXUtils.normalizeVIXValue
applies the clamped scaling with bounds 10–50 unconditionally (always in
[0,1]), so it maps the sentinel -1 to 0 rather than preserving it. -/
theorem C6_normalizers_amended :
    (∀ value mn mx : ℚ, value ≠ -1 →
      ValidationUtils.normalize value mn mx
        = max 0 (min 1 ((value - mn) / (mx - mn)))) ∧
    (∀ value mn mx : ℚ, value ≠ -1 →
      0 ≤ ValidationUtils.normalize value mn mx ∧
      ValidationUtils.normalize value mn mx ≤ 1) ∧
    (∀ mn mx : ℚ, ValidationUtils.normalize (-1) mn mx = -1) ∧
    (∀ vix : ℚ,
      VIXUtils.normalizeVIXValue vix = max 0 (min 1 ((vix - 10) / (50 - 10)))) ∧
    (∀ vix : ℚ, 0 ≤ VIXUtils.normalizeVIXValue vix ∧
      VIXUtils.normalizeVIXValue vix ≤ 1) ∧
    VIXUtils.normalizeVIXValue (-1) = 0 := by
  refine ⟨?_, ?_, ?_, ?_, ?_, ?_⟩
  · intro value mn mx h
    simp [ValidationUtils.normalize, h]
  · intro value mn mx h
    rw [ValidationUtils.normalize, if_neg h]
    exact ⟨le_max_left _ _, max_le (by norm_num) (min_le_left _ _)⟩
  · intro mn mx
    simp [ValidationUtils.normalize]
  · intro vix
    rfl
  · intro vix
    exact ⟨le_max_left _ _, max_le (by norm_num) (min_le_left _ _)⟩
  · norm_num [VIXUtils.normalizeVIXValue]

/-- Witness for C6 (amended): concrete normalizations. -/
theorem C6_normalizers_amended_witness :
    ValidationUtils.normalize 30 10 50 = max 0 (min 1 ((30 - 10) / (50 - 10))) ∧
    (0 ≤ ValidationUtils.normalize 30 10 50 ∧
      ValidationUtils.normalize 30 10 50 ≤ 1) :=
  ⟨C6_normalizers_amended.1 30 10 50 (by norm_num),
   C6_normalizers_amended.2.1 30 10 50 (by norm_num)⟩

/-- C2: every aggregation result either reports zero valid indicators with
the sentinel score -1 and status "no_data", or at least one valid indicator
with an integer score in [0,100] and one of the five numeric sentiment
states (never "no_data"). -/
theorem C2_result_invariant (latestData : LatestData) (now : ℚ) :
    ((DataAggregationService.calculateCurrentSentiment latestData
        now).calculationDetails.validIndicatorCount = 0 ∧
      (DataAggregationService.calculateCurrentSentiment latestData now).score = -1 ∧
      (DataAggregationService.calculateCurrentSentiment latestData now).status
        = "no_data") ∨
    ((DataAggregationService.calculateCurrentSentiment latestData
        now).calculationDetails.validIndicatorCount ≠ 0 ∧
      0 ≤ (DataAggregationService.calculateCurrentSentiment latestData now).score ∧
      (DataAggregationService.calculateCurrentSentiment latestData now).score ≤ 100 ∧
      ((DataAggregationService.calculateCurrentSentiment latestData now).status
          = "extreme_fear" ∨
        (DataAggregationService.calculateCurrentSentiment latestData now).status
          = "fear" ∨
        (DataAggregationService.calculateCurrentSentiment latestData now).status
          = "neutral" ∨
        (DataAggregationService.calculateCurrentSentiment latestData now).status
          = "greed" ∨
        (DataAggregationService.calculateCurrentSentiment latestData now).status
          = "extreme_greed") ∧
      (DataAggregationService.calculateCurrentSentiment latestData now).status
        ≠ "no_data") := by
  simp only [DataAggregationService.calculateCurrentSentiment,
    SENTIMENT_CONSTANTS.MIN_SCORE, SENTIMENT_CONSTANTS.MAX_SCORE]
  split
  · left
    exact ⟨rfl, rfl, rfl⟩
  · right
    rename_i h
    set s : ℚ :=
      max 0 (min 100
        ((DataAggregationService.accumulate DEFAULT_WEIGHTS
            { vix := DataAggregationService.extractIndicatorValue latestData.vix,
              breadth :=
                DataAggregationService.extractIndicatorValue latestData.breadth,
              volume :=
                DataAggregationService.extractIndicatorValue latestData.volume,
              margin :=
                DataAggregationService.extractIndicatorValue latestData.margin,
              foreign :=
                DataAggregationService.extractIndicatorValue
                  latestData.foreign }).1 /
          (DataAggregationService.accumulate DEFAULT_WEIGHTS
            { vix := DataAggregationService.extractIndicatorValue latestData.vix,
              breadth :=
                DataAggregationService.extractIndicatorValue latestData.breadth,
              volume :=
                DataAggregationService.extractIndicatorValue latestData.volume,
              margin :=
                DataAggregationService.extractIndicatorValue latestData.margin,
              foreign :=
                DataAggregationService.extractIndicatorValue
                  latestData.foreign }).2.1 *
          100)) with hs
    have h0 : 0 ≤ s := le_max_left _ _
    have h1 : s ≤ 100 := max_le (by norm_num) (min_le_left _ _)
    have hmem := getSentimentStatus_status_mem h0
    have hnd : (SentimentUtils.getSentimentStatus s).status ≠ "no_data" := by
      rcases hmem with h' | h' | h' | h' | h' <;> simp [h']
    exact ⟨h, round_nonneg_of_nonneg h0, round_le_hundred h1, hmem, hnd⟩

/-- C4: counterexample — breadth alone with the storable normalized value
0.1450: the binary64 evaluation gives fl(0.145 · 100) = 14.499999999999998,
so the program's score is 14 while round(v · 100) = round(14.5) = 15. -/
theorem C4_single_indicator_counterexample :
    (DataAggregationService.calculateCurrentSentiment64 (onlyBreadth (29/200))
        0).score ≠ round ((29/200 : ℚ) * 100) ∧
    (DataAggregationService.calculateCurrentSentiment64 (onlyBreadth (29/200))
        0).score = 14 ∧
    round ((29/200 : ℚ) * 100) = 15 := by
  have hr : round ((29/200 : ℚ) * 100) = 15 := by norm_num [round_eq]
  have hs :
      (DataAggregationService.calculateCurrentSentiment64
        (onlyBreadth (29/200)) 0).score = 14 := by
    norm_num [DataAggregationService.calculateCurrentSentiment64,
      DataAggregationService.accumulate64, DataAggregationService.weightEntries,
      DataAggregationService.accumulateStep64,
      DataAggregationService.extractIndicatorValue64,
      DataAggregationService.extractIndicatorValue, onlyBreadth, mkRecord,
      DEFAULT_WEIGHTS64, dadd, dmul, ddiv, fl, mant_ge, mant_lt, mant_unit,
      scaleOf_ge, scaleOf_lt, scaleOf_unit, floorInRange_done, floorInRange_ge,
      floorInRange_lt, SENTIMENT_CONSTANTS.MIN_SCORE,
      SENTIMENT_CONSTANTS.MAX_SCORE, round_eq]
  refine ⟨?_, hs, hr⟩
  rw [hs, hr]
  norm_num

/-- C4 amended: with exactly one indicator holding a non-sentinel binary64
value v in [0,1] and the other four missing, the single valid indicator's
weight becomes the entire denominator — validIndicatorCount is 1 and the
recorded totalWeight is exactly that indicator's weight, for each of the
five positions; the double-rounded score can differ from round(v · 100)
(see the counterexample), but a full-strength value 1.0 alone yields score
100 in every position, in particular breadth = 1.0 alone yields 100. -/
theorem C4_single_indicator_renormalization_amended (v : ℚ) (hd : fl v = v)
    (h0 : 0 ≤ v) (_h1 : v ≤ 1) :
    ((DataAggregationService.calculateCurrentSentiment64 (onlyVix v)
          0).calculationDetails.validIndicatorCount = 1 ∧
      (DataAggregationService.calculateCurrentSentiment64 (onlyVix v)
          0).calculationDetails.totalWeight = DEFAULT_WEIGHTS64.vix) ∧
    ((DataAggregationService.calculateCurrentSentiment64 (onlyBreadth v)
          0).calculationDetails.validIndicatorCount = 1 ∧
      (DataAggregationService.calculateCurrentSentiment64 (onlyBreadth v)
          0).calculationDetails.totalWeight = DEFAULT_WEIGHTS64.breadth) ∧
    ((DataAggregationService.calculateCurrentSentiment64 (onlyVolume v)
          0).calculationDetails.validIndicatorCount = 1 ∧
      (DataAggregationService.calculateCurrentSentiment64 (onlyVolume v)
          0).calculationDetails.totalWeight = DEFAULT_WEIGHTS64.volume) ∧
    ((DataAggregationService.calculateCurrentSentiment64 (onlyMargin v)
          0).calculationDetails.validIndicatorCount = 1 ∧
      (DataAggregationService.calculateCurrentSentiment64 (onlyMargin v)
          0).calculationDetails.totalWeight = DEFAULT_WEIGHTS64.margin) ∧
    ((DataAggregationService.calculateCurrentSentiment64 (onlyForeign v)
          0).calculationDetails.validIndicatorCount = 1 ∧
      (DataAggregationService.calculateCurrentSentiment64 (onlyForeign v)
          0).calculationDetails.totalWeight = DEFAULT_WEIGHTS64.foreign) ∧
    (DataAggregationService.calculateCurrentSentiment64 (onlyVix 1) 0).score
      = 100 ∧
    (DataAggregationService.calculateCurrentSentiment64 (onlyBreadth 1) 0).score
      = 100 ∧
    (DataAggregationService.calculateCurrentSentiment64 (onlyVolume 1) 0).score
      = 100 ∧
    (DataAggregationService.calculateCurrentSentiment64 (onlyMargin 1) 0).score
      = 100 ∧
    (DataAggregationService.calculateCurrentSentiment64 (onlyForeign 1) 0).score
      = 100 := by
  have hv : v ≠ -1 := by
    intro he
    rw [he] at h0
    norm_num at h0
  refine ⟨⟨?_, ?_⟩, ⟨?_, ?_⟩, ⟨?_, ?_⟩, ⟨?_, ?_⟩, ⟨?_, ?_⟩, ?_, ?_, ?_, ?_, ?_⟩ <;>
    norm_num [DataAggregationService.calculateCurrentSentiment64,
      DataAggregationService.accumulate64, DataAggregationService.weightEntries,
      DataAggregationService.accumulateStep64,
      DataAggregationService.extractIndicatorValue64,
      DataAggregationService.extractIndicatorValue, onlyVix, onlyBreadth,
      onlyVolume, onlyMargin, onlyForeign, mkRecord, DEFAULT_WEIGHTS64, dadd,
      dmul, ddiv, hd, hv, fl_neg_one, fl_one, fl_hundred, fl_w_vix,
      fl_w_vix_fix, fl_w_breadth, fl_w_volume, fl_w_volume_fix, fl_w_margin,
      fl_w_margin_fix, fl_w_foreign, fl_w_foreign_fix,
      SENTIMENT_CONSTANTS.MIN_SCORE, SENTIMENT_CONSTANTS.MAX_SCORE, round_eq]

/-- Witness for C4 (amended): 0.5 is a binary64 value in [0,1]; breadth
alone at 0.5 gives validIndicatorCount 1 with the breadth weight as the
whole denominator, and breadth 1.0 alone gives score 100. -/
theorem C4_single_indicator_renormalization_amended_witness :
    (DataAggregationService.calculateCurrentSentiment64 (onlyBreadth (1/2))
        0).calculationDetails.validIndicatorCount = 1 ∧
    (DataAggregationService.calculateCurrentSentiment64 (onlyBreadth (1/2))
        0).calculationDetails.totalWeight = DEFAULT_WEIGHTS64.breadth ∧
    (DataAggregationService.calculateCurrentSentiment64 (onlyBreadth 1) 0).score
      = 100 := by
  have h := C4_single_indicator_renormalization_amended (1/2)
    (by norm_num [fl, mant_ge, mant_lt, mant_unit, scaleOf_ge, scaleOf_lt,
      scaleOf_unit, floorInRange_done, floorInRange_ge, floorInRange_lt])
    (by norm_num) (by norm_num)
  exact ⟨h.2.1.1, h.2.1.2, h.2.2.2.2.2.2.1⟩
/-- Counterexample for C7: with the same stored readings (breadth 0.5
captured at minute 0, the rest missing), invocations at minute 0 and minute
40 agree on score and status but differ in the calculationDetails
dataFreshness entries (minutesOld 0 vs 40, isFresh true vs false) — a
non-timestamp calculationDetails field other than calculatedAt. -/
theorem C7_determinism_counterexample :
    (DataAggregationService.calculateCurrentSentiment
        { vix := none, breadth := some (mkRecord (1/2) 0), volume := none,
          margin := none, foreign := none } 0).score
      = (DataAggregationService.calculateCurrentSentiment
        { vix := none, breadth := some (mkRecord (1/2) 0), volume := none,
          margin := none, foreign := none } 40).score ∧
    (DataAggregationService.calculateCurrentSentiment
        { vix := none, breadth := some (mkRecord (1/2) 0), volume := none,
          margin := none, foreign := none } 0).status
      = (DataAggregationService.calculateCurrentSentiment
        { vix := none, breadth := some (mkRecord (1/2) 0), volume := none,
          margin := none, foreign := none } 40).status ∧
    (DataAggregationService.calculateCurrentSentiment
        { vix := none, breadth := some (mkRecord (1/2) 0), volume := none,
          margin := none, foreign := none } 0).calculationDetails.dataFreshness
      = [("breadth", { minutesOld := 0, isFresh := true, timestamp := 0 })] ∧
    (DataAggregationService.calculateCurrentSentiment
        { vix := none, breadth := some (mkRecord (1/2) 0), volume := none,
          margin := none, foreign := none } 40).calculationDetails.dataFreshness
      = [("breadth", { minutesOld := 40, isFresh := false, timestamp := 0 })] ∧
    (DataAggregationService.calculateCurrentSentiment
        { vix := none, breadth := some (mkRecord (1/2) 0), volume := none,
          margin := none, foreign := none } 0).calculationDetails.dataFreshness
      ≠ (DataAggregationService.calculateCurrentSentiment
        { vix := none, breadth := some (mkRecord (1/2) 0), volume := none,
          margin := none, foreign := none } 40).calculationDetails.dataFreshness := by
  refine ⟨?_, ?_, ?_, ?_, ?_⟩ <;>
    norm_num [DataAggregationService.calculateCurrentSentiment,
      DataAggregationService.accumulate, DataAggregationService.weightEntries,
      DataAggregationService.accumulateStep,
      DataAggregationService.extractIndicatorValue,
      DataAggregationService.calculateDataFreshness,
      DataAggregationService.freshnessOf, mkRecord, DEFAULT_WEIGHTS,
      SENTIMENT_CONSTANTS.MIN_SCORE, SENTIMENT_CONSTANTS.MAX_SCORE]

/-- C7 amended: aggregation is deterministic in everything not derived from
the invocation clock: for a fixed set of stored readings, two invocations
agree on score, status, color, action, indicators, and the weights,
rawIndicators, weightedSum, totalWeight and validIndicatorCount calculation
details; calculatedAt, timestamp and the clock-derived dataFreshness entries
may differ. -/
theorem C7_determinism_amended (latestData : LatestData) (n1 n2 : ℚ) :
    (DataAggregationService.calculateCurrentSentiment latestData n1).score
      = (DataAggregationService.calculateCurrentSentiment latestData n2).score ∧
    (DataAggregationService.calculateCurrentSentiment latestData n1).status
      = (DataAggregationService.calculateCurrentSentiment latestData n2).status ∧
    (DataAggregationService.calculateCurrentSentiment latestData n1).color
      = (DataAggregationService.calculateCurrentSentiment latestData n2).color ∧
    (DataAggregationService.calculateCurrentSentiment latestData n1).action
      = (DataAggregationService.calculateCurrentSentiment latestData n2).action ∧
    (DataAggregationService.calculateCurrentSentiment latestData n1).indicators
      = (DataAggregationService.calculateCurrentSentiment latestData
          n2).indicators ∧
    (DataAggregationService.calculateCurrentSentiment latestData
        n1).calculationDetails.weights
      = (DataAggregationService.calculateCurrentSentiment latestData
          n2).calculationDetails.weights ∧
    (DataAggregationService.calculateCurrentSentiment latestData
        n1).calculationDetails.rawIndicators
      = (DataAggregationService.calculateCurrentSentiment latestData
          n2).calculationDetails.rawIndicators ∧
    (DataAggregationService.calculateCurrentSentiment latestData
        n1).calculationDetails.weightedSum
      = (DataAggregationService.calculateCurrentSentiment latestData
          n2).calculationDetails.weightedSum ∧
    (DataAggregationService.calculateCurrentSentiment latestData
        n1).calculationDetails.totalWeight
      = (DataAggregationService.calculateCurrentSentiment latestData
          n2).calculationDetails.totalWeight ∧
    (DataAggregationService.calculateCurrentSentiment latestData
        n1).calculationDetails.validIndicatorCount
      = (DataAggregationService.calculateCurrentSentiment latestData
          n2).calculationDetails.validIndicatorCount := by
  by_cases h : (DataAggregationService.accumulate DEFAULT_WEIGHTS
      { vix := DataAggregationService.extractIndicatorValue latestData.vix,
        breadth := DataAggregationService.extractIndicatorValue latestData.breadth,
        volume := DataAggregationService.extractIndicatorValue latestData.volume,
        margin := DataAggregationService.extractIndicatorValue latestData.margin,
        foreign :=
          DataAggregationService.extractIndicatorValue latestData.foreign }).2.2
      = 0 <;>
    simp [DataAggregationService.calculateCurrentSentiment, h]

/-- equality of the code's volatility with the spec's population standard
deviation, including the guard cases: for zero or one score the code
returns 0, which agrees with the formula (with the 0/0 = 0 convention of
the rationals for the empty list). -/
lemma calculateVolatility_eq_popStdDev (scores : List ℚ) :
    DataAggregationService.calculateVolatility scores = popStdDev scores := by
  match scores with
  | [] => simp [DataAggregationService.calculateVolatility, popStdDev]
  | [x] => simp [DataAggregationService.calculateVolatility, popStdDev]
  | x :: y :: rest =>
    simp only [DataAggregationService.calculateVolatility, popStdDev]
    rw [if_neg (by simp)]

/-- C8: the volatility statistic is the population standard deviation of
the scores; in particular [50, 50, 50] has volatility 0 and [40, 60] has
volatility 10. -/
theorem C8_volatility_is_population_stddev :
    (∀ scores : List ℚ,
      DataAggregationService.calculateVolatility scores = popStdDev scores) ∧
    DataAggregationService.calculateVolatility [50, 50, 50] = 0 ∧
    DataAggregationService.calculateVolatility [40, 60] = 10 := by
  refine ⟨calculateVolatility_eq_popStdDev, ?_, ?_⟩
  · simp only [DataAggregationService.calculateVolatility]
    norm_num
  · simp only [DataAggregationService.calculateVolatility]
    norm_num
    rw [show (100 : ℝ) = (10 : ℝ) ^ 2 by norm_num,
      Real.sqrt_sq (by norm_num : (0:ℝ) ≤ 10)]

/-- the fold behind `Math.max(...scores)` returns an element of the list. -/
lemma maxOfScores_mem (l : List ℚ) (h : l ≠ []) :
    DataAggregationService.maxOfScores l ∈ l := by
  match l with
  | [] => exact absurd rfl h
  | x :: xs => exact foldl_max_mem xs x

/-- the fold behind `Math.max(...scores)` bounds every element. -/
lemma le_maxOfScores {y : ℚ} (l : List ℚ) (hy : y ∈ l) :
    y ≤ DataAggregationService.maxOfScores l := by
  match l with
  | [] => cases hy
  | x :: xs =>
    rcases List.mem_cons.mp hy with rfl | h
    · exact self_le_foldl_max xs y
    · exact mem_le_foldl_max xs x h

/-- the fold behind `Math.min(...scores)` returns an element of the list. -/
lemma minOfScores_mem (l : List ℚ) (h : l ≠ []) :
    DataAggregationService.minOfScores l ∈ l := by
  match l with
  | [] => exact absurd rfl h
  | x :: xs => exact foldl_min_mem xs x

/-- the fold behind `Math.min(...scores)` is below every element. -/
lemma minOfScores_le {y : ℚ} (l : List ℚ) (hy : y ∈ l) :
    DataAggregationService.minOfScores l ≤ y := by
  match l with
  | [] => cases hy
  | x :: xs =>
    rcases List.mem_cons.mp hy with rfl | h
    · exact foldl_min_le_self xs y
    · exact foldl_min_le_mem xs x h

/-- C9: getAggregatedStats returns null exactly when no history record's
capture timestamp lies in [startDate, endDate]; otherwise the returned
object carries the record count, the rounded average score, the maximum and
minimum scores, the population standard deviation as volatility, and a
per-status count histogram of the records found. -/
theorem C9_getAggregatedStats_contract (records : List SentimentHistoryRecord)
    (startDate endDate : ℚ) :
    (DataAggregationService.getAggregatedStats records startDate endDate = none ↔
      records.filter (DataAggregationService.inRange startDate endDate) = []) ∧
    ∀ stats,
      DataAggregationService.getAggregatedStats records startDate endDate
        = some stats →
      stats.periodDays
          = (records.filter
              (DataAggregationService.inRange startDate endDate)).length ∧
      stats.average
          = round
            (((records.filter
                  (DataAggregationService.inRange startDate endDate)).map
                (fun r => r.score)).sum /
              ((records.filter
                  (DataAggregationService.inRange startDate endDate)).length : ℚ)) ∧
      stats.maximum
          ∈ (records.filter (DataAggregationService.inRange startDate endDate)).map
            (fun r => r.score) ∧
      (∀ s ∈ (records.filter
            (DataAggregationService.inRange startDate endDate)).map
          (fun r => r.score), s ≤ stats.maximum) ∧
      stats.minimum
          ∈ (records.filter (DataAggregationService.inRange startDate endDate)).map
            (fun r => r.score) ∧
      (∀ s ∈ (records.filter
            (DataAggregationService.inRange startDate endDate)).map
          (fun r => r.score), stats.minimum ≤ s) ∧
      stats.volatility
          = popStdDev
            ((records.filter (DataAggregationService.inRange startDate endDate)).map
              (fun r => r.score)) ∧
      ∀ st : String,
        (stats.distribution.lookup st).getD 0
          = (records.filter
              (DataAggregationService.inRange startDate endDate)).countP
            (fun r => r.status == st) := by
  simp only [DataAggregationService.getAggregatedStats]
  by_cases h :
      (records.filter (DataAggregationService.inRange startDate endDate)).length
        = 0
  · simp [h, List.length_eq_zero.mp h]
  · rw [if_neg h]
    have hfe :
        records.filter (DataAggregationService.inRange startDate endDate) ≠ [] :=
      fun hx => h (by rw [hx]; rfl)
    have hse :
        (records.filter (DataAggregationService.inRange startDate endDate)).map
            (fun r => r.score) ≠ [] := by
      simpa [List.map_eq_nil_iff] using hfe
    constructor
    · constructor
      · intro hx
        cases hx
      · intro hx
        exact absurd (by rw [hx]; rfl) h
    · intro stats hst
      rcases Option.some.inj hst with rfl
      refine ⟨rfl, ?_, ?_, ?_, ?_, ?_, ?_, ?_⟩
      · simp [List.length_map]
      · exact maxOfScores_mem _ hse
      · intro s hs
        exact le_maxOfScores _ hs
      · exact minOfScores_mem _ hse
      · intro s hs
        exact minOfScores_le _ hs
      · exact calculateVolatility_eq_popStdDev _
      · intro st
        exact lookup_statusDistribution _ st

/-- Witness for C9: an empty range yields null; a populated range yields
statistics (average 50 for the single record with score 50). -/
theorem C9_getAggregatedStats_contract_witness :
    DataAggregationService.getAggregatedStats
      [{ score := 50, status := "neutral", createdAt := 5 }] 20 30 = none ∧
    ∃ stats,
      DataAggregationService.getAggregatedStats
        [{ score := 50, status := "neutral", createdAt := 5 }] 0 10
        = some stats ∧ stats.average = 50 := by
  constructor
  · exact (C9_getAggregatedStats_contract
      [{ score := 50, status := "neutral", createdAt := 5 }] 20 30).1.mpr
      (by norm_num [DataAggregationService.inRange])
  · rcases hx :
        DataAggregationService.getAggregatedStats
          [{ score := 50, status := "neutral", createdAt := 5 }] 0 10 with _ | stats
    · exact absurd
        (((C9_getAggregatedStats_contract
            [{ score := 50, status := "neutral", createdAt := 5 }] 0 10).1.mp hx))
        (by norm_num [DataAggregationService.inRange])
    · obtain ⟨-, havg, -⟩ :=
        (C9_getAggregatedStats_contract
          [{ score := 50, status := "neutral", createdAt := 5 }] 0 10).2 stats hx
      refine ⟨stats, rfl, ?_⟩
      rw [havg]
      norm_num [DataAggregationService.inRange]
